import Mathlib

/-!
Shallow embedding of the user CRUD service: the Record Store
(`src/repository/mongodb_repo.rs`, `MongoRepo`) and the Request Handler
(`src/api/user_api.rs`).  The MongoDB collection is modelled as a list of
user documents; each driver call takes a `driverOk : Bool` resolving the
nondeterministic success or failure of the round trip to the database
(`none` = driver error, which the source turns into a panic through
`.ok().expect(..)`).  Rust panics (`unwrap` / `expect`) are modelled by an
explicit `abort` outcome, distinct from a returned `Err` value.
-/

/-- BSON ObjectId, modelled by its canonical 24-character lowercase
hexadecimal string form.  `ObjectId::parse_str` accepts exactly the
24-hex-digit strings (case-insensitively) and normalises to lowercase. -/
structure ObjectId where
  hex : String
deriving DecidableEq, Repr

/-- Hexadecimal digit test used by `ObjectId::parse_str`. -/
def isHexDigitChar (c : Char) : Bool :=
  c.isDigit || (decide ('a' ≤ c) && decide (c ≤ 'f')) ||
    (decide ('A' ≤ c) && decide (c ≤ 'F'))

/-- Well-formedness of an ObjectId hex string: 24 hexadecimal characters. -/
def wfObjectIdHex (s : String) : Bool :=
  s.length == 24 && s.data.all isHexDigitChar

/-- Lowercase a string character by character (hex digits only are
relevant here). -/
def lowerHex (s : String) : String :=
  ⟨s.data.map Char.toLower⟩

/-- Model of `ObjectId::parse_str`: succeeds exactly on well-formed
24-hex-character strings, normalising to lowercase. -/
def ObjectId.parse_str (s : String) : Option ObjectId :=
  if wfObjectIdHex s then some ⟨lowerHex s⟩ else none

/-- Model of `ObjectId::to_hex`: the canonical hex string of the id. -/
def ObjectId.to_hex (o : ObjectId) : String := o.hex

/-- An ObjectId produced by the driver is canonical: well-formed and
lowercase, so that `parse_str (to_hex o) = some o`. -/
def ObjectId.wf (o : ObjectId) : Prop :=
  wfObjectIdHex o.hex = true ∧ lowerHex o.hex = o.hex

instance (o : ObjectId) : Decidable o.wf := by
  unfold ObjectId.wf; infer_instance

/-- Modelled from the spec: the user model file `src/models/user_model.rs`
is not in the snapshot.  Its fields are determined by every use in
`mongodb_repo.rs` and `user_api.rs` (`id`, `name`, `email`, `password`),
and spec section 3 fixes `id` as an optional identifier, absent until the
record is first persisted and assigned by the document store on creation
(the usual `#[serde(rename = "_id", skip_serializing_if = "Option::is_none")]`
attribute). -/
structure User where
  id : Option ObjectId
  name : String
  email : String
  password : String
deriving DecidableEq, Repr

/-- Result of `insert_one`: the acknowledgment carrying the id the driver
assigned to the inserted document. -/
structure InsertOneResult where
  inserted_id : ObjectId
deriving DecidableEq, Repr

/-- The MongoDB collection of user documents, modelled as a list in
insertion order. -/
structure Collection where
  docs : List User
deriving DecidableEq, Repr

/-- Outcome of a repository (`MongoRepo`) method.  `ok` and `err` are the
two sides of the Rust `Result<_, Error>`; `abort` is a panic raised by
`unwrap` or `expect` (the string is the panic message). -/
inductive ROutcome (α : Type) where
  | ok : α → ROutcome α
  | err : ROutcome α
  | abort : String → ROutcome α
deriving DecidableEq, Repr

/-- Test for the `Err` side of a repository outcome. -/
def ROutcome.isErr {α : Type} : ROutcome α → Bool
  | .err => true
  | _ => false

/-- Test for a panic outcome. -/
def ROutcome.isAbort {α : Type} : ROutcome α → Bool
  | .abort _ => true
  | _ => false

/-- HTTP status codes used by the handlers in `user_api.rs`. -/
inductive Status where
  | ok
  | badRequest
  | notFound
  | internalServerError
deriving DecidableEq, Repr

/-- Outcome of a request handler: a 200 response with a body, an error
status, or an aborted (panicked) request. -/
inductive HOutcome (α : Type) where
  | ok : α → HOutcome α
  | err : Status → HOutcome α
  | abort : String → HOutcome α
deriving DecidableEq, Repr

/-- The filter `doc! {"_id": obj_id}` applied to a stored document. -/
def matchesId (oid : ObjectId) (u : User) : Bool :=
  decide (u.id = some oid)

/-- Driver primitive `find_one`: outer `none` is a driver error, inner
option is presence of a matching document (first match in the list). -/
def Collection.find_one (driverOk : Bool) (col : Collection) (oid : ObjectId) :
    Option (Option User) :=
  if driverOk then some (col.docs.find? (matchesId oid)) else none

/-- Driver primitive `insert_one`: the driver generates the fresh id
`genOid` for a document inserted without one and appends the document. -/
def Collection.insert_one (driverOk : Bool) (col : Collection) (doc : User)
    (genOid : ObjectId) : Option (InsertOneResult × Collection) :=
  if driverOk then
    some (⟨genOid⟩, ⟨col.docs ++ [{ doc with id := some genOid }]⟩)
  else none

/-- Effect of the `$set` update document on one stored record: name,
email and password are overwritten, the id is untouched. -/
def setFields (name email password : String) (u : User) : User :=
  { u with name := name, email := email, password := password }

/-- Apply the `$set` update to the first document matching the id. -/
def updateFirstMatch (oid : ObjectId) (name email password : String) :
    List User → List User
  | [] => []
  | u :: rest =>
    if matchesId oid u then setFields name email password u :: rest
    else u :: updateFirstMatch oid name email password rest

/-- Driver primitive `find_one_and_update` with default options: returns
the matched document in its PRE-update state (`ReturnDocument::Before` is
the driver default) together with the post-update collection; `none` for
the matched document when nothing matched. -/
def Collection.find_one_and_update (driverOk : Bool) (col : Collection)
    (oid : ObjectId) (name email password : String) :
    Option (Option User × Collection) :=
  if driverOk then
    some (col.docs.find? (matchesId oid),
          ⟨updateFirstMatch oid name email password col.docs⟩)
  else none

/-- Remove the first document matching the id. -/
def removeFirstMatch (oid : ObjectId) : List User → List User
  | [] => []
  | u :: rest => if matchesId oid u then rest else u :: removeFirstMatch oid rest

/-- Driver primitive `find_one_and_delete`: returns the removed document
(`none` when nothing matched) together with the post-delete collection. -/
def Collection.find_one_and_delete (driverOk : Bool) (col : Collection)
    (oid : ObjectId) : Option (Option User × Collection) :=
  if driverOk then
    some (col.docs.find? (matchesId oid), ⟨removeFirstMatch oid col.docs⟩)
  else none

/-- Driver primitive `find` with no filter: every document. -/
def Collection.find_all (driverOk : Bool) (col : Collection) : Option (List User) :=
  if driverOk then some col.docs else none

/-- Model of `MongoRepo::create` (mongodb_repo.rs lines 50-61).  `bhash`
stands for the external call `bcrypt::hash(password, DEFAULT_COST)` with
its internally generated random salt fixed; `genOid` is the id the driver
generates for the insert.  A driver failure hits
`.ok().expect("Failed to insert User.")` and panics. -/
def MongoRepo.create (bhash : String → String) (genOid : ObjectId)
    (driverOk : Bool) (col : Collection) (new_user : User) :
    ROutcome InsertOneResult × Collection :=
  let hashed_password := bhash new_user.password
  let new_doc : User :=
    { id := none, name := new_user.name, email := new_user.email,
      password := hashed_password }
  match Collection.insert_one driverOk col new_doc genOid with
  | none => (.abort "Failed to insert User.", col)
  | some (user, col') => (.ok user, col')

/-- Model of `MongoRepo::get_user` (mongodb_repo.rs lines 70-76).
`ObjectId::parse_str(id).unwrap()` panics on a malformed id; a driver
failure panics through `.ok().expect("Failed to get User.")`; a missing
document panics through `user.unwrap()`. -/
def MongoRepo.get_user (driverOk : Bool) (col : Collection) (id : String) :
    ROutcome User :=
  match ObjectId.parse_str id with
  | none => .abort "called Result.unwrap on an Err value"
  | some obj_id =>
    match Collection.find_one driverOk col obj_id with
    | none => .abort "Failed to get User."
    | some none => .abort "called Option.unwrap on a None value"
    | some (some user) => .ok user

/-- Model of `MongoRepo::update_user` (mongodb_repo.rs lines 86-93).
Same panic structure as `get_user`; on success it returns the value of
`find_one_and_update`, i.e. the matched document in its pre-update
state. -/
def MongoRepo.update_user (driverOk : Bool) (col : Collection) (id : String)
    (user : User) : ROutcome User × Collection :=
  match ObjectId.parse_str id with
  | none => (.abort "called Result.unwrap on an Err value", col)
  | some obj_id =>
    match Collection.find_one_and_update driverOk col obj_id
        user.name user.email user.password with
    | none => (.abort "Failed to update User.", col)
    | some (none, _) => (.abort "called Option.unwrap on a None value", col)
    | some (some user_updated, col') => (.ok user_updated, col')

/-- Model of `MongoRepo::delete_user` (mongodb_repo.rs lines 106-112). -/
def MongoRepo.delete_user (driverOk : Bool) (col : Collection) (id : String) :
    ROutcome User × Collection :=
  match ObjectId.parse_str id with
  | none => (.abort "called Result.unwrap on an Err value", col)
  | some obj_id =>
    match Collection.find_one_and_delete driverOk col obj_id with
    | none => (.abort "Failed to delete User.", col)
    | some (none, _) => (.abort "called Option.unwrap on a None value", col)
    | some (some user_deleted, col') => (.ok user_deleted, col')

/-- Model of `MongoRepo::get_all_users` (mongodb_repo.rs lines 124-128). -/
def MongoRepo.get_all_users (driverOk : Bool) (col : Collection) :
    ROutcome (List User) :=
  match Collection.find_all driverOk col with
  | none => .abort "Failed to get all Users."
  | some users => .ok users

/-- Model of the `POST /user` handler `create_user` (user_api.rs lines
16-30): copies the body fields with `id := none`, calls create, maps
`Err` to 500. -/
def Api.create_user (bhash : String → String) (genOid : ObjectId)
    (driverOk : Bool) (col : Collection) (new_user : User) :
    HOutcome InsertOneResult × Collection :=
  match MongoRepo.create bhash genOid driverOk col
      { id := none, name := new_user.name, email := new_user.email,
        password := new_user.password } with
  | (.ok res, col') => (.ok res, col')
  | (.err, col') => (.err .internalServerError, col')
  | (.abort m, col') => (.abort m, col')

/-- Model of the `GET /user/{id}` handler `get_user` (user_api.rs lines
44-54): 400 on an empty id, otherwise the store result with `Err` mapped
to 500. -/
def Api.get_user (driverOk : Bool) (col : Collection) (id : String) :
    HOutcome User :=
  if id.isEmpty then .err .badRequest
  else
    match MongoRepo.get_user driverOk col id with
    | .ok user => .ok user
    | .err => .err .internalServerError
    | .abort m => .abort m

/-- Model of the `PUT /user/{id}` handler `update_user` (user_api.rs lines
68-95): 400 on an empty id; `ObjectId::parse_str(&id).unwrap()` panics on
a malformed id before any store access; on a successful update whose
returned record has a present id, a second `get_user` round trip
(`driverOk2`) fetches the post-update record; an absent id yields 404;
`Err` yields 500. -/
def Api.update_user (driverOk1 driverOk2 : Bool) (col : Collection)
    (id : String) (new_user : User) : HOutcome User × Collection :=
  if id.isEmpty then (.err .badRequest, col)
  else
    match ObjectId.parse_str id with
    | none => (.abort "called Result.unwrap on an Err value", col)
    | some oid =>
      match MongoRepo.update_user driverOk1 col id
          { id := some oid, name := new_user.name, email := new_user.email,
            password := new_user.password } with
      | (.ok update, col') =>
        if update.id.isSome then
          match MongoRepo.get_user driverOk2 col' id with
          | .ok u => (.ok u, col')
          | .err => (.err .internalServerError, col')
          | .abort m => (.abort m, col')
        else (.err .notFound, col')
      | (.err, col') => (.err .internalServerError, col')
      | (.abort m, col') => (.abort m, col')

/-- Model of the `DELETE /user/{id}` handler `delete_user` (user_api.rs
lines 109-124): 400 on an empty id; on a successful delete whose returned
record has a present id, 200 with the fixed confirmation text; an absent
id yields 404; `Err` yields 500. -/
def Api.delete_user (driverOk : Bool) (col : Collection) (id : String) :
    HOutcome String × Collection :=
  if id.isEmpty then (.err .badRequest, col)
  else
    match MongoRepo.delete_user driverOk col id with
    | (.ok user, col') =>
      if user.id.isSome then (.ok "User deleted successfully.", col')
      else (.err .notFound, col')
    | (.err, col') => (.err .internalServerError, col')
    | (.abort m, col') => (.abort m, col')

/-- Model of the `GET /users` handler `get_all_users` (user_api.rs lines
137-143). -/
def Api.get_all_users (driverOk : Bool) (col : Collection) :
    HOutcome (List User) :=
  match MongoRepo.get_all_users driverOk col with
  | .ok users => .ok users
  | .err => .err .internalServerError
  | .abort m => .abort m

/-! Helper lemmas shared by several results. -/

/-- A string accepted by `ObjectId::parse_str` has 24 characters, hence is
not empty. -/
theorem parse_str_isEmpty_false {s : String} {oid : ObjectId}
    (h : ObjectId.parse_str s = some oid) : s.isEmpty = false := by
  cases hE : s.isEmpty with
  | false => rfl
  | true =>
    have hs : s = "" := (String.isEmpty_iff _).mp hE
    subst hs
    simp [ObjectId.parse_str, wfObjectIdHex] at h

/-- Parsing the canonical hex form of a driver-generated id returns the
id itself. -/
theorem parse_str_to_hex {o : ObjectId} (h : o.wf) :
    ObjectId.parse_str (ObjectId.to_hex o) = some o := by
  obtain ⟨h1, h2⟩ := h
  simp [ObjectId.parse_str, ObjectId.to_hex, h1, h2]

/-- A document found by the `_id` filter carries exactly that id and is a
member of the collection. -/
theorem find?_matchesId_eq_some {oid : ObjectId} {l : List User} {u : User}
    (h : l.find? (matchesId oid) = some u) : u.id = some oid ∧ u ∈ l := by
  have h1 := List.find?_some h
  have h2 := List.mem_of_find?_eq_some h
  simp [matchesId] at h1
  exact ⟨h1, h2⟩

/-- If no document of the collection carries the id, the `_id` filter
finds nothing. -/
theorem find?_fresh_none {oid : ObjectId} {l : List User}
    (h : ∀ d ∈ l, d.id ≠ some oid) : l.find? (matchesId oid) = none := by
  apply List.find?_eq_none.mpr
  intro x hx
  simpa [matchesId] using h x hx

/-- Repository `get_user` never returns `Err`: it panics instead, on a
malformed id, on a driver failure and on a missing document. -/
theorem get_user_not_err (dk : Bool) (col : Collection) (id : String) :
    (MongoRepo.get_user dk col id).isErr = false := by
  cases hp : ObjectId.parse_str id with
  | none => simp [MongoRepo.get_user, hp, ROutcome.isErr]
  | some oid =>
    cases dk with
    | false => simp [MongoRepo.get_user, hp, Collection.find_one, ROutcome.isErr]
    | true =>
      cases hf : col.docs.find? (matchesId oid) with
      | none =>
        simp [MongoRepo.get_user, hp, Collection.find_one, hf, ROutcome.isErr]
      | some u =>
        simp [MongoRepo.get_user, hp, Collection.find_one, hf, ROutcome.isErr]

/-- Repository `update_user` never returns `Err`. -/
theorem update_user_not_err (dk : Bool) (col : Collection) (id : String)
    (u : User) : ((MongoRepo.update_user dk col id u).1).isErr = false := by
  cases hp : ObjectId.parse_str id with
  | none => simp [MongoRepo.update_user, hp, ROutcome.isErr]
  | some oid =>
    cases dk with
    | false =>
      simp [MongoRepo.update_user, hp, Collection.find_one_and_update,
        ROutcome.isErr]
    | true =>
      cases hf : col.docs.find? (matchesId oid) with
      | none =>
        simp [MongoRepo.update_user, hp, Collection.find_one_and_update, hf,
          ROutcome.isErr]
      | some d =>
        simp [MongoRepo.update_user, hp, Collection.find_one_and_update, hf,
          ROutcome.isErr]

/-- Repository `delete_user` never returns `Err`. -/
theorem delete_user_not_err (dk : Bool) (col : Collection) (id : String) :
    ((MongoRepo.delete_user dk col id).1).isErr = false := by
  cases hp : ObjectId.parse_str id with
  | none => simp [MongoRepo.delete_user, hp, ROutcome.isErr]
  | some oid =>
    cases dk with
    | false =>
      simp [MongoRepo.delete_user, hp, Collection.find_one_and_delete,
        ROutcome.isErr]
    | true =>
      cases hf : col.docs.find? (matchesId oid) with
      | none =>
        simp [MongoRepo.delete_user, hp, Collection.find_one_and_delete, hf,
          ROutcome.isErr]
      | some d =>
        simp [MongoRepo.delete_user, hp, Collection.find_one_and_delete, hf,
          ROutcome.isErr]

/-- Repository `get_all_users` never returns `Err`. -/
theorem get_all_users_not_err (dk : Bool) (col : Collection) :
    (MongoRepo.get_all_users dk col).isErr = false := by
  cases dk with
  | false => simp [MongoRepo.get_all_users, Collection.find_all, ROutcome.isErr]
  | true => simp [MongoRepo.get_all_users, Collection.find_all, ROutcome.isErr]

/-- When `update_user` returns `Ok`, the record is the matched stored
document: its id is present (it is the filtered id) and it belongs to the
pre-update collection. -/
theorem update_user_ok_inv {dk : Bool} {col col' : Collection} {id : String}
    {u ret : User}
    (h : MongoRepo.update_user dk col id u = (.ok ret, col')) :
    ret.id.isSome = true ∧ ret ∈ col.docs := by
  cases hp : ObjectId.parse_str id with
  | none => simp [MongoRepo.update_user, hp] at h
  | some oid =>
    cases dk with
    | false => simp [MongoRepo.update_user, hp, Collection.find_one_and_update] at h
    | true =>
      cases hf : col.docs.find? (matchesId oid) with
      | none =>
        simp [MongoRepo.update_user, hp, Collection.find_one_and_update, hf] at h
      | some d =>
        simp [MongoRepo.update_user, hp, Collection.find_one_and_update, hf] at h
        obtain ⟨hd, hid⟩ := find?_matchesId_eq_some hf
        rw [← h.1]
        exact ⟨by simp [hd], hid⟩

/-- When `delete_user` returns `Ok`, the record is the matched stored
document: its id is present and it belongs to the pre-delete
collection. -/
theorem delete_user_ok_inv {dk : Bool} {col col' : Collection} {id : String}
    {ret : User}
    (h : MongoRepo.delete_user dk col id = (.ok ret, col')) :
    ret.id.isSome = true ∧ ret ∈ col.docs := by
  cases hp : ObjectId.parse_str id with
  | none => simp [MongoRepo.delete_user, hp] at h
  | some oid =>
    cases dk with
    | false => simp [MongoRepo.delete_user, hp, Collection.find_one_and_delete] at h
    | true =>
      cases hf : col.docs.find? (matchesId oid) with
      | none =>
        simp [MongoRepo.delete_user, hp, Collection.find_one_and_delete, hf] at h
      | some d =>
        simp [MongoRepo.delete_user, hp, Collection.find_one_and_delete, hf] at h
        obtain ⟨hd, hid⟩ := find?_matchesId_eq_some hf
        rw [← h.1]
        exact ⟨by simp [hd], hid⟩

/-- The GET handler can answer 400 (empty id), 200, or abort, but its 500
branch (matching an `Err` from the store) is unreachable. -/
theorem api_get_user_not_500 (dk : Bool) (col : Collection) (id : String) :
    Api.get_user dk col id ≠ .err .internalServerError := by
  cases hE : id.isEmpty with
  | true => simp [Api.get_user, hE]
  | false =>
    cases hr : MongoRepo.get_user dk col id with
    | ok user => simp [Api.get_user, hE, hr]
    | err =>
      have h := get_user_not_err dk col id
      rw [hr] at h
      simp [ROutcome.isErr] at h
    | abort m => simp [Api.get_user, hE, hr]

/-- The PUT handler's 500 branches (matching `Err` from update and from
the second get) and its 404 branch (absent id on the updated record) are
all unreachable. -/
theorem api_update_user_responses (dk dk2 : Bool) (col : Collection)
    (id : String) (nu : User) :
    (Api.update_user dk dk2 col id nu).1 ≠ .err .internalServerError
    ∧ (Api.update_user dk dk2 col id nu).1 ≠ .err .notFound := by
  cases hE : id.isEmpty with
  | true => simp [Api.update_user, hE]
  | false =>
    cases hp : ObjectId.parse_str id with
    | none => simp [Api.update_user, hE, hp]
    | some oid =>
      cases hru : MongoRepo.update_user dk col id
          { id := some oid, name := nu.name, email := nu.email,
            password := nu.password } with
      | mk r col2 =>
        cases r with
        | ok upd =>
          cases hS : upd.id.isSome with
          | false =>
            have h := (update_user_ok_inv hru).1
            rw [hS] at h
            cases h
          | true =>
            cases hg : MongoRepo.get_user dk2 col2 id with
            | ok u2 => simp [Api.update_user, hE, hp, hru, hS, hg]
            | err =>
              have h := get_user_not_err dk2 col2 id
              rw [hg] at h
              simp [ROutcome.isErr] at h
            | abort m => simp [Api.update_user, hE, hp, hru, hS, hg]
        | err =>
          have h := update_user_not_err dk col id
            { id := some oid, name := nu.name, email := nu.email,
              password := nu.password }
          rw [hru] at h
          simp [ROutcome.isErr] at h
        | abort m => simp [Api.update_user, hE, hp, hru]

/-- The DELETE handler's 500 branch (matching `Err`) and its 404 branch
(absent id on the deleted record) are both unreachable. -/
theorem api_delete_user_responses (dk : Bool) (col : Collection)
    (id : String) :
    (Api.delete_user dk col id).1 ≠ .err .internalServerError
    ∧ (Api.delete_user dk col id).1 ≠ .err .notFound := by
  cases hE : id.isEmpty with
  | true => simp [Api.delete_user, hE]
  | false =>
    cases hru : MongoRepo.delete_user dk col id with
    | mk r col2 =>
      cases r with
      | ok del =>
        cases hS : del.id.isSome with
        | false =>
          have h := (delete_user_ok_inv hru).1
          rw [hS] at h
          cases h
        | true => simp [Api.delete_user, hE, hru, hS]
      | err =>
        have h := delete_user_not_err dk col id
        rw [hru] at h
        simp [ROutcome.isErr] at h
      | abort m => simp [Api.delete_user, hE, hru]

/-- The list handler's 500 branch is unreachable. -/
theorem api_get_all_users_not_500 (dk : Bool) (col : Collection) :
    Api.get_all_users dk col ≠ .err .internalServerError := by
  cases hr : MongoRepo.get_all_users dk col with
  | ok users => simp [Api.get_all_users, hr]
  | err =>
    have h := get_all_users_not_err dk col
    rw [hr] at h
    simp [ROutcome.isErr] at h
  | abort m => simp [Api.get_all_users, hr]

/-- C6: for every non-empty identifier string that is not a well-formed
store identifier, the PUT /user/id handler aborts at the
identifier-parsing step (`ObjectId::parse_str(&id).unwrap()`), leaving
the store untouched, identically for every driver behavior and collection
state (so before any store access), and returns no 400 or any other error
response. -/
theorem C6_put_malformed_id_aborts (dk1 dk2 : Bool) (col : Collection)
    (id : String) (nu : User) (hne : id ≠ "")
    (hp : ObjectId.parse_str id = none) :
    Api.update_user dk1 dk2 col id nu =
      (.abort "called Result.unwrap on an Err value", col)
    ∧ ∀ s : Status, (Api.update_user dk1 dk2 col id nu).1 ≠ .err s := by
  have hE : id.isEmpty = false :=
    Bool.eq_false_iff.mpr (fun h => hne ((String.isEmpty_iff _).mp h))
  refine ⟨?_, ?_⟩
  · simp [Api.update_user, hE, hp]
  · intro s
    simp [Api.update_user, hE, hp]

/-- Witness for C6 at the concrete malformed identifier "not-a-hex-id". -/
theorem C6_put_malformed_id_aborts_witness :
    Api.update_user true true ⟨[]⟩ "not-a-hex-id"
        { id := none, name := "Ana", email := "ana@x.com",
          password := "secret" } =
      (.abort "called Result.unwrap on an Err value", ⟨[]⟩)
    ∧ (Api.update_user true true ⟨[]⟩ "not-a-hex-id"
        { id := none, name := "Ana", email := "ana@x.com",
          password := "secret" }).1 ≠ .err .badRequest := by
  have h := C6_put_malformed_id_aborts true true ⟨[]⟩ "not-a-hex-id"
    { id := none, name := "Ana", email := "ana@x.com", password := "secret" }
    (by decide) (by decide)
  exact ⟨h.1, h.2 .badRequest⟩

/-- C7: GET /user/id with the empty identifier returns the 400 outcome
for every driver behavior and collection state, so the outcome is fully
determined before any store access; had the store's get operation been
invoked with the empty identifier it would have aborted at `parse_str`,
which the handler never does. -/
theorem C7_get_empty_id_badRequest (dk : Bool) (col : Collection) :
    Api.get_user dk col "" = .err .badRequest
    ∧ MongoRepo.get_user dk col "" =
        .abort "called Result.unwrap on an Err value" :=
  ⟨rfl, rfl⟩

/-- C9: `get_user`, `update_user`, `delete_user` and `get_all_users`
never return `Err` (they abort on any failure instead), so the handlers'
500 branches that match an `Err` result of these operations are
unreachable. -/
theorem C9_repo_never_err_no_500 (dk dk2 : Bool) (col : Collection)
    (id : String) (u : User) :
    (MongoRepo.get_user dk col id).isErr = false
    ∧ ((MongoRepo.update_user dk col id u).1).isErr = false
    ∧ ((MongoRepo.delete_user dk col id).1).isErr = false
    ∧ (MongoRepo.get_all_users dk col).isErr = false
    ∧ Api.get_user dk col id ≠ .err .internalServerError
    ∧ (Api.update_user dk dk2 col id u).1 ≠ .err .internalServerError
    ∧ (Api.delete_user dk col id).1 ≠ .err .internalServerError
    ∧ Api.get_all_users dk col ≠ .err .internalServerError :=
  ⟨get_user_not_err dk col id,
   update_user_not_err dk col id u,
   delete_user_not_err dk col id,
   get_all_users_not_err dk col,
   api_get_user_not_500 dk col id,
   (api_update_user_responses dk dk2 col id u).1,
   (api_delete_user_responses dk col id).1,
   api_get_all_users_not_500 dk col⟩

/-- A canonical 24-hex-character identifier used in concrete
instantiations. -/
def sampleHex : String := "0123456789abcdef01234567"

/-- The ObjectId with hex form `sampleHex`. -/
def sampleOid : ObjectId := ⟨sampleHex⟩

/-- A sample stored document carrying `sampleOid`. -/
def sampleStored : User :=
  { id := some sampleOid, name := "Ana", email := "ana@x.com",
    password := "hashedpw" }

/-- A sample request body (no id). -/
def sampleBody : User :=
  { id := none, name := "Bia", email := "bia@x.com", password := "plain" }

/-- C10: whenever `update_user` or `delete_user` returns `Ok`, the
returned record is a document fetched from the store and its id field is
present, so the 404 branches of the PUT and DELETE handlers, taken when
that id is absent, are unreachable. -/
theorem C10_update_delete_id_present (dk dk2 : Bool) (col col' : Collection)
    (id : String) (u ret : User) :
    (MongoRepo.update_user dk col id u = (.ok ret, col') →
        ret.id.isSome = true ∧ ret ∈ col.docs)
    ∧ (MongoRepo.delete_user dk col id = (.ok ret, col') →
        ret.id.isSome = true ∧ ret ∈ col.docs)
    ∧ (Api.update_user dk dk2 col id u).1 ≠ .err .notFound
    ∧ (Api.delete_user dk col id).1 ≠ .err .notFound :=
  ⟨fun h => update_user_ok_inv h,
   fun h => delete_user_ok_inv h,
   (api_update_user_responses dk dk2 col id u).2,
   (api_delete_user_responses dk col id).2⟩

/-- Witness for C10 on a one-document store: the update and the delete
both return the stored document, whose id is present. -/
theorem C10_update_delete_id_present_witness :
    (sampleStored.id.isSome = true ∧ sampleStored ∈ [sampleStored])
    ∧ (sampleStored.id.isSome = true ∧ sampleStored ∈ [sampleStored])
    ∧ (Api.update_user true true ⟨[sampleStored]⟩ sampleHex sampleBody).1 ≠
        .err .notFound
    ∧ (Api.delete_user true ⟨[sampleStored]⟩ sampleHex).1 ≠ .err .notFound := by
  have h1 := (C10_update_delete_id_present true true ⟨[sampleStored]⟩
    ⟨[setFields sampleBody.name sampleBody.email sampleBody.password
        sampleStored]⟩ sampleHex sampleBody sampleStored).1 (by decide)
  have h2 := (C10_update_delete_id_present true true ⟨[sampleStored]⟩ ⟨[]⟩
    sampleHex sampleBody sampleStored).2.1 (by decide)
  have h3 := (C10_update_delete_id_present true true ⟨[sampleStored]⟩ ⟨[]⟩
    sampleHex sampleBody sampleStored).2.2
  exact ⟨h1, h2, h3.1, h3.2⟩

/-- C8 counterexample: on a store (driver) failure the DELETE handler
does not return 500 as claimed; the repository aborts inside
`.ok().expect("Failed to delete User.")` and the whole request dies with
that panic. -/
theorem C8_counterexample :
    Api.delete_user false ⟨[sampleStored]⟩ sampleHex =
      (.abort "Failed to delete User.", ⟨[sampleStored]⟩)
    ∧ (Api.delete_user false ⟨[sampleStored]⟩ sampleHex).1 ≠
        .err .internalServerError :=
  ⟨by decide, by decide⟩

/-- C8 as amended: for a non-empty identifier, a successful delete always
carries a present id and yields 200 with exactly the fixed confirmation
text (the 404 branch is unreachable); a store (driver) failure aborts the
request inside the repository instead of producing the 500 response. -/
theorem C8_delete_responses (dk : Bool) (col col' : Collection) (id : String)
    (u : User) (hne : id ≠ "") :
    (MongoRepo.delete_user dk col id = (.ok u, col') → u.id.isSome = true)
    ∧ (MongoRepo.delete_user dk col id = (.ok u, col') →
        Api.delete_user dk col id = (.ok "User deleted successfully.", col'))
    ∧ ((ObjectId.parse_str id).isSome = true →
        Api.delete_user false col id =
          (.abort "Failed to delete User.", col)) := by
  have hE : id.isEmpty = false :=
    Bool.eq_false_iff.mpr (fun h => hne ((String.isEmpty_iff _).mp h))
  refine ⟨fun h => (delete_user_ok_inv h).1, fun h => ?_, fun hps => ?_⟩
  · have hS := (delete_user_ok_inv h).1
    simp [Api.delete_user, hE, h, hS]
  · obtain ⟨oid, hp⟩ := Option.isSome_iff_exists.mp hps
    simp [Api.delete_user, hE, MongoRepo.delete_user, hp,
      Collection.find_one_and_delete]

/-- Witness for C8 on a one-document store. -/
theorem C8_delete_responses_witness :
    sampleStored.id.isSome = true
    ∧ Api.delete_user true ⟨[sampleStored]⟩ sampleHex =
        (.ok "User deleted successfully.", ⟨[]⟩)
    ∧ Api.delete_user false ⟨[sampleStored]⟩ sampleHex =
        (.abort "Failed to delete User.", ⟨[sampleStored]⟩) := by
  have h := C8_delete_responses true ⟨[sampleStored]⟩ ⟨[]⟩ sampleHex
    sampleStored (by decide)
  exact ⟨h.1 (by decide), h.2.1 (by decide), h.2.2 (by decide)⟩

/-- A bcrypt-style output (version/cost prefix prepended) is never equal
to its input: the lengths differ. -/
theorem bcrypt_prefix_ne (p : String) : "$2b$" ++ p ≠ p := by
  intro h
  have h2 : ("$2b$" ++ p).length = p.length := congrArg String.length h
  rw [String.length_append] at h2
  have h3 : "$2b$".length = 4 := rfl
  omega

/-- C1 counterexample: create a record (password hashed), then update it
with the caller-supplied plaintext "plain"; the stored record's password
field now equals that plaintext, because `update_user` stores the
caller's password value as-is without hashing. -/
theorem C1_counterexample :
    ((MongoRepo.update_user true
        (MongoRepo.create (fun q => "$2b$" ++ q) sampleOid true ⟨[]⟩
            { id := none, name := "Ana", email := "ana@x.com",
              password := "secret" }).2
        sampleHex
        { id := some sampleOid, name := "Ana", email := "ana@x.com",
          password := "plain" }).2).docs.map (fun d => d.password) =
      ["plain"] := by
  decide

/-- C1 as amended: the create path stores the bcrypt hash of the supplied
plaintext (never the plaintext itself, as long as the hash has no fixed
point), while the update path stores the caller-supplied password value
as-is, so an update can persist a plaintext value. -/
theorem C1_hash_on_create_plaintext_on_update
    (bhash : String → String) (genOid : ObjectId) (col : Collection)
    (nu : User) (hb : ∀ p, bhash p ≠ p) :
    ((MongoRepo.create bhash genOid true col nu).2.docs =
        col.docs ++ [{ id := some genOid, name := nu.name, email := nu.email,
                       password := bhash nu.password }]
      ∧ bhash nu.password ≠ nu.password)
    ∧ (∀ (oid : ObjectId) (d : User) (rest : List User) (n e p : String),
        d.id = some oid →
        updateFirstMatch oid n e p (d :: rest) = setFields n e p d :: rest
        ∧ (setFields n e p d).password = p) := by
  refine ⟨⟨rfl, hb nu.password⟩, ?_⟩
  intro oid d rest n e p hd
  refine ⟨?_, rfl⟩
  simp [updateFirstMatch, matchesId, hd]

/-- Witness for C1 as amended: a concrete create stores the hashed
password, a concrete update stores the plaintext "plain" as-is. -/
theorem C1_hash_on_create_plaintext_on_update_witness :
    ((MongoRepo.create (fun q => "$2b$" ++ q) sampleOid true ⟨[]⟩
        { id := none, name := "Ana", email := "ana@x.com",
          password := "secret" }).2.docs =
      [] ++ [{ id := some sampleOid, name := "Ana", email := "ana@x.com",
               password := "$2b$secret" }]
     ∧ ("$2b$secret" : String) ≠ "secret")
    ∧ (updateFirstMatch sampleOid "Ana" "ana@x.com" "plain" [sampleStored] =
        [setFields "Ana" "ana@x.com" "plain" sampleStored]
      ∧ (setFields "Ana" "ana@x.com" "plain" sampleStored).password =
        "plain") := by
  have h := C1_hash_on_create_plaintext_on_update (fun q => "$2b$" ++ q)
    sampleOid ⟨[]⟩
    { id := none, name := "Ana", email := "ana@x.com", password := "secret" }
    (fun p => bcrypt_prefix_ne p)
  have h2 := h.2 sampleOid sampleStored [] "Ana" "ana@x.com" "plain" rfl
  exact ⟨⟨h.1.1, h.1.2⟩, ⟨h2.1, h2.2⟩⟩

/-- C2 counterexample: updating an identifier that matches no stored
document does not produce a NotFound outcome nor a 404; the repository
panics at `user_updated.unwrap()` and the whole request aborts. -/
theorem C2_counterexample :
    MongoRepo.update_user true ⟨[]⟩ sampleHex sampleBody =
      (.abort "called Option.unwrap on a None value", ⟨[]⟩)
    ∧ Api.update_user true true ⟨[]⟩ sampleHex sampleBody =
      (.abort "called Option.unwrap on a None value", ⟨[]⟩)
    ∧ (Api.update_user true true ⟨[]⟩ sampleHex sampleBody).1 ≠ .err .notFound
    ∧ (MongoRepo.update_user true ⟨[]⟩ sampleHex sampleBody).1.isErr =
        false :=
  ⟨by decide, by decide, by decide, by decide⟩

/-- C2 as amended: for every well-formed identifier matching no stored
document, `update_user` aborts (unwrap on None) instead of returning a
NotFound error, and the PUT handler propagates the abort, never answering
404. -/
theorem C2_update_missing_aborts (dk2 : Bool) (col : Collection) (id : String)
    (oid : ObjectId) (u : User)
    (hp : ObjectId.parse_str id = some oid)
    (hm : col.docs.find? (matchesId oid) = none) :
    MongoRepo.update_user true col id u =
      (.abort "called Option.unwrap on a None value", col)
    ∧ Api.update_user true dk2 col id u =
      (.abort "called Option.unwrap on a None value", col) := by
  have hE : id.isEmpty = false := parse_str_isEmpty_false hp
  constructor
  · simp [MongoRepo.update_user, hp, Collection.find_one_and_update, hm]
  · simp [Api.update_user, hE, hp, MongoRepo.update_user,
      Collection.find_one_and_update, hm]

/-- Witness for C2 as amended on the empty store. -/
theorem C2_update_missing_aborts_witness :
    MongoRepo.update_user true ⟨[]⟩ sampleHex sampleBody =
      (.abort "called Option.unwrap on a None value", ⟨[]⟩)
    ∧ Api.update_user true true ⟨[]⟩ sampleHex sampleBody =
      (.abort "called Option.unwrap on a None value", ⟨[]⟩) :=
  C2_update_missing_aborts true ⟨[]⟩ sampleHex sampleOid sampleBody
    (by decide) rfl

/-- C3 counterexample: the update operation returns the record in its
prior state (name "Ana"), not the post-update state carrying the supplied
fields (name "Bia"): `find_one_and_update` is called with default
options, so the driver returns the document as it was before the
update. -/
theorem C3_counterexample :
    (MongoRepo.update_user true ⟨[sampleStored]⟩ sampleHex sampleBody).1 =
      .ok sampleStored
    ∧ sampleStored.name = "Ana"
    ∧ sampleBody.name = "Bia"
    ∧ (MongoRepo.update_user true ⟨[sampleStored]⟩ sampleHex sampleBody).1 ≠
        .ok (setFields sampleBody.name sampleBody.email sampleBody.password
          sampleStored) :=
  ⟨by decide, rfl, rfl, by decide⟩

/-- C3 as amended: for every matching identifier, `update_user` returns
the matched record in its PRE-update state while the store itself moves
to the post-update state; whenever the supplied name differs from the
stored one, the returned record is therefore not the post-update
record. -/
theorem C3_update_returns_prior_state (col : Collection) (id : String)
    (oid : ObjectId) (u d : User)
    (hp : ObjectId.parse_str id = some oid)
    (hf : col.docs.find? (matchesId oid) = some d) :
    MongoRepo.update_user true col id u =
      (.ok d, ⟨updateFirstMatch oid u.name u.email u.password col.docs⟩)
    ∧ (d.name ≠ u.name →
        MongoRepo.update_user true col id u ≠
          (.ok (setFields u.name u.email u.password d),
           ⟨updateFirstMatch oid u.name u.email u.password col.docs⟩)) := by
  have h1 : MongoRepo.update_user true col id u =
      (.ok d, ⟨updateFirstMatch oid u.name u.email u.password col.docs⟩) := by
    simp [MongoRepo.update_user, hp, Collection.find_one_and_update, hf]
  refine ⟨h1, fun hne heq => ?_⟩
  rw [h1] at heq
  have hd : d = setFields u.name u.email u.password d := by
    have := congrArg Prod.fst heq
    simpa using this
  exact hne (by simpa [setFields] using congrArg User.name hd)

/-- Witness for C3 as amended on a one-document store. -/
theorem C3_update_returns_prior_state_witness :
    MongoRepo.update_user true ⟨[sampleStored]⟩ sampleHex sampleBody =
      (.ok sampleStored,
       ⟨updateFirstMatch sampleOid sampleBody.name sampleBody.email
          sampleBody.password [sampleStored]⟩)
    ∧ MongoRepo.update_user true ⟨[sampleStored]⟩ sampleHex sampleBody ≠
      (.ok (setFields sampleBody.name sampleBody.email sampleBody.password
          sampleStored),
       ⟨updateFirstMatch sampleOid sampleBody.name sampleBody.email
          sampleBody.password [sampleStored]⟩) := by
  have h := C3_update_returns_prior_state ⟨[sampleStored]⟩ sampleHex sampleOid
    sampleBody sampleStored (by decide) (by decide)
  exact ⟨h.1, h.2 (by decide)⟩

/-- C4 counterexample: getting a well-formed identifier with no matching
document does not return a NotFound error value; the repository panics at
`user.unwrap()` and no `Err` value is ever produced. -/
theorem C4_counterexample :
    MongoRepo.get_user true ⟨[]⟩ sampleHex =
      .abort "called Option.unwrap on a None value"
    ∧ (MongoRepo.get_user true ⟨[]⟩ sampleHex).isErr = false :=
  ⟨by decide, by decide⟩

/-- C4 as amended: for every well-formed identifier with no matching
document, `get_user` aborts (unwrap on None) instead of returning
NotFound; a driver/connectivity failure aborts through
`.ok().expect("Failed to get User.")` instead of returning StoreError; no
error value ever reaches the caller. -/
theorem C4_get_missing_aborts (col : Collection) (id : String)
    (oid : ObjectId)
    (hp : ObjectId.parse_str id = some oid)
    (hm : col.docs.find? (matchesId oid) = none) :
    MongoRepo.get_user true col id =
      .abort "called Option.unwrap on a None value"
    ∧ MongoRepo.get_user false col id = .abort "Failed to get User."
    ∧ ∀ dk : Bool, (MongoRepo.get_user dk col id).isErr = false := by
  refine ⟨?_, ?_, fun dk => get_user_not_err dk col id⟩
  · simp [MongoRepo.get_user, hp, Collection.find_one, hm]
  · simp [MongoRepo.get_user, hp, Collection.find_one]

/-- Witness for C4 as amended on the empty store. -/
theorem C4_get_missing_aborts_witness :
    MongoRepo.get_user true ⟨[]⟩ sampleHex =
      .abort "called Option.unwrap on a None value"
    ∧ MongoRepo.get_user false ⟨[]⟩ sampleHex = .abort "Failed to get User."
    ∧ (MongoRepo.get_user true ⟨[]⟩ sampleHex).isErr = false := by
  have h := C4_get_missing_aborts ⟨[]⟩ sampleHex sampleOid (by decide) rfl
  exact ⟨h.1, h.2.1, h.2.2 true⟩

/-- C5: creating a valid candidate record and then getting the identifier
returned by create yields a record whose name and email equal the
candidate's, and whose password is the bcrypt hash of the candidate's
plaintext, different from the plaintext whenever the hash has no fixed
point.  `genOid.wf` says the driver-generated id is canonical (24
lowercase hex characters) and the freshness hypothesis is the store's id
uniqueness guarantee. -/
theorem C5_create_then_get (bhash : String → String) (genOid : ObjectId)
    (col : Collection) (nu : User)
    (hb : ∀ p, bhash p ≠ p) (hwf : genOid.wf)
    (hfresh : ∀ d ∈ col.docs, d.id ≠ some genOid) :
    MongoRepo.create bhash genOid true col nu =
      (.ok ⟨genOid⟩,
       ⟨col.docs ++ [{ id := some genOid, name := nu.name, email := nu.email,
                       password := bhash nu.password }]⟩)
    ∧ MongoRepo.get_user true
        ⟨col.docs ++ [{ id := some genOid, name := nu.name, email := nu.email,
                        password := bhash nu.password }]⟩
        (ObjectId.to_hex genOid) =
      .ok { id := some genOid, name := nu.name, email := nu.email,
            password := bhash nu.password }
    ∧ bhash nu.password ≠ nu.password := by
  refine ⟨rfl, ?_, hb nu.password⟩
  have hp := parse_str_to_hex hwf
  have hnone : col.docs.find? (matchesId genOid) = none :=
    find?_fresh_none hfresh
  simp [MongoRepo.get_user, hp, Collection.find_one, List.find?_append,
    hnone, matchesId]

/-- Witness for C5: concrete create-then-get round trip on the empty
store. -/
theorem C5_create_then_get_witness :
    MongoRepo.create (fun q => "$2b$" ++ q) sampleOid true ⟨[]⟩ sampleBody =
      (.ok ⟨sampleOid⟩,
       ⟨[] ++ [{ id := some sampleOid, name := "Bia", email := "bia@x.com",
                 password := "$2b$plain" }]⟩)
    ∧ MongoRepo.get_user true
        ⟨[] ++ [{ id := some sampleOid, name := "Bia", email := "bia@x.com",
                  password := "$2b$plain" }]⟩
        (ObjectId.to_hex sampleOid) =
      .ok { id := some sampleOid, name := "Bia", email := "bia@x.com",
            password := "$2b$plain" }
    ∧ ("$2b$plain" : String) ≠ "plain" := by
  have h := C5_create_then_get (fun q => "$2b$" ++ q) sampleOid ⟨[]⟩
    sampleBody (fun p => bcrypt_prefix_ne p) (by decide)
    (by intro d hd; exact absurd hd (List.not_mem_nil d))
  exact h
